import Mathlib

/-!
Verification of the calendar-synchronization core of the fluid-calendar
repository: CalDAV/WebCal sync services, iCalendar event normalization,
recurrence expansion and master/instance reconciliation against local
storage.  The TypeScript services are shallowly embedded: JavaScript
`Date` values become epoch milliseconds (`Int`), the Prisma store becomes
an explicit `DbState`, async/throwing code becomes `Except`, and the
per-event `try/catch` blocks around storage creates become an explicit
failure oracle.
-/

namespace FluidCal

/-! ### JavaScript Date model

JS `Date` is modelled as milliseconds since the Unix epoch (`Int`).
`toISOString` works in UTC; the civil-date conversions below implement
the proleptic Gregorian calendar used by JS dates.
-/

/-- Milliseconds in one day. -/
def msPerDay : Int := 86400000

/-- Convert a day count since 1970-01-01 to a civil (year, month, day),
month 1–12, day 1–31 (proleptic Gregorian, as used by JS `Date`). -/
def civilFromDays (z0 : Int) : Int × Nat × Nat :=
  let z := z0 + 719468
  let era := z.fdiv 146097
  let doe := (z - era * 146097).toNat
  let yoe := (doe - doe / 1460 + doe / 36524 - doe / 146096) / 365
  let y := (yoe : Int) + era * 400
  let doy := doe - (365 * yoe + yoe / 4 - yoe / 100)
  let mp := (5 * doy + 2) / 153
  let d := doy - (153 * mp + 2) / 5 + 1
  let m := if mp < 10 then mp + 3 else mp - 9
  (if m ≤ 2 then y + 1 else y, m, d)

/-- Convert a civil (year, month, day) to a day count since 1970-01-01. -/
def daysFromCivil (y : Int) (m d : Nat) : Int :=
  let y' := if m ≤ 2 then y - 1 else y
  let era := y'.fdiv 400
  let yoe := (y' - era * 400).toNat
  let mp := if m > 2 then m - 3 else m + 9
  let doy := (153 * mp + 2) / 5 + d - 1
  let doe := yoe * 365 + yoe / 4 - yoe / 100 + doy
  era * 146097 + (doe : Int) - 719468

/-- Epoch milliseconds of midnight (00:00:00.000 UTC) on a civil date. -/
def utcMidnightMillis (y : Int) (m d : Nat) : Int :=
  daysFromCivil y m d * msPerDay

/-- Epoch milliseconds of a civil date plus a time of day. -/
def utcMillis (y : Int) (m d hh mm : Nat) : Int :=
  utcMidnightMillis y m d + (hh * 3600000 + mm * 60000 : Nat)

/-- `Date.prototype.getFullYear` of a timestamp (UTC model). -/
def yearOfMillis (t : Int) : Int :=
  (civilFromDays (t.fdiv msPerDay)).1

/-- Decimal digit character. -/
def digitChar (n : Nat) : Char := Char.ofNat (48 + n % 10)

/-- Two-digit zero-padded decimal rendering. -/
def pad2 (n : Nat) : String := ⟨[digitChar (n / 10), digitChar n]⟩

/-- Four-digit zero-padded decimal rendering. -/
def pad4 (n : Nat) : String :=
  ⟨[digitChar (n / 1000), digitChar (n / 100), digitChar (n / 10), digitChar n]⟩

/-- The date part of JS `Date.prototype.toISOString`: the source computes
`date.toISOString().split("T")[0]`, i.e. the `YYYY-MM-DD` rendering of the
timestamp's UTC civil date (years 1000–9999). -/
def isoDateOfMillis (t : Int) : String :=
  let c := civilFromDays (t.fdiv msPerDay)
  pad4 c.1.toNat ++ "-" ++ pad2 c.2.1 ++ "-" ++ pad2 c.2.2

/-! ### String helpers from the source -/

/-- Characters before the first `'_'` (all of them when none occurs). -/
def takeBeforeUnderscoreAux : List Char → List Char
  | [] => []
  | c :: cs => if c = '_' then [] else c :: takeBeforeUnderscoreAux cs

/-- JS `uid.split("_")[0]`: the substring before the first underscore,
the whole string when no underscore occurs. -/
def takeBeforeUnderscore (s : String) : String :=
  ⟨takeBeforeUnderscoreAux s.data⟩

/-- Whether the first list is an initial segment of the second. -/
def isInitialSegment : List Char → List Char → Bool
  | [], _ => true
  | _ :: _, [] => false
  | c :: cs, d :: ds => c = d && isInitialSegment cs ds

/-- JS `String.prototype.startsWith pat` on `s`. -/
def strStartsWith (s pat : String) : Bool :=
  isInitialSegment pat.data s.data

/-! ### Data model

`CalendarEvent` mirrors the Prisma `CalendarEvent` row together with the
in-memory shape handled by the services; the `id` field is `""` until the
store assigns one.  JS `Date` fields are epoch milliseconds. -/

structure CalendarEvent where
  id : String := ""
  feedId : String := ""
  externalEventId : Option String := none
  title : String := ""
  description : Option String := none
  location : Option String := none
  start : Int := 0
  end_ : Int := 0
  allDay : Bool := false
  isRecurring : Bool := false
  recurrenceRule : Option String := none
  isMaster : Bool := false
  masterEventId : Option String := none
  recurringEventId : Option String := none
  status : Option String := none
  deriving Repr, DecidableEq

/-- Feed subscription row (Prisma `CalendarFeed`), with the fields the
sync services read or write. -/
structure CalendarFeed where
  id : String
  userId : String
  accountId : Option String := none
  ftype : String := "CALDAV"
  url : Option String := none
  name : String := ""
  color : Option String := none
  enabled : Bool := true
  lastSync : Option Int := none
  syncToken : Option String := none
  error : Option String := none
  deriving Repr, DecidableEq

/-- The relational store: feed rows, event rows (in insertion order) and
the id counter used for newly created event rows. -/
structure DbState where
  feeds : List CalendarFeed
  events : List CalendarEvent
  nextId : Nat := 0
  deriving Repr, DecidableEq

/-- The event rows owned by one feed. -/
def eventsOfFeed (db : DbState) (feedId : String) : List CalendarEvent :=
  db.events.filter (fun e => e.feedId = feedId)

/-! ### Event Normalizer: `setEventTypeProperties`

Direct translation of `CalDAVCalendarService.setEventTypeProperties`
(identical in `WebCalCalendarService`): classify a normalized VEVENT as
master / instance / standalone from the presence of RRULE and
RECURRENCE-ID, and derive its stable external id.  The mutated event and
the `processedUids` set (modelled as a list) are returned. -/

def setEventTypeProperties (event : CalendarEvent) (uid : String)
    (hasRRule hasRecurrenceId : Bool) (processedUids : List String) :
    CalendarEvent × List String :=
  if hasRRule && !hasRecurrenceId then
    ({ event with
        isMaster := true
        isRecurring := true
        masterEventId := none
        externalEventId := some uid },
      processedUids ++ [uid])
  else if hasRecurrenceId then
    let masterUid := takeBeforeUnderscore uid
    let instanceDate := isoDateOfMillis event.start
    let extId := masterUid ++ "_" ++ instanceDate
    ({ event with
        isMaster := false
        isRecurring := false
        masterEventId := some masterUid
        externalEventId := some extId },
      processedUids ++ [extId])
  else
    ({ event with
        isMaster := false
        isRecurring := false
        masterEventId := none
        externalEventId := some uid },
      processedUids ++ [uid])

/-! ### Recurrence rule engine

Model of the external `rrule` library interface the services use
(`RRule.parseString`, constructor seeded with `dtstart`, and
`.between(start, end, inclusive)`), for the DAILY / WEEKLY fragment with
INTERVAL and COUNT.  A rule outside this fragment is treated as
unparseable; `expandMasterEvent` then returns `[]`, exactly the
behaviour of its catch-all handler. -/

inductive RRuleFreq
  | daily
  | weekly
  deriving Repr, DecidableEq

structure RRuleOptions where
  freq : RRuleFreq
  interval : Nat := 1
  count : Option Nat := none
  dtstart : Int := 0
  deriving Repr, DecidableEq

/-- Split a character list on a separator character. -/
def splitOnCharCore (sep : Char) : List Char → List Char → List (List Char)
  | [], acc => [acc.reverse]
  | c :: cs, acc =>
    if c = sep then acc.reverse :: splitOnCharCore sep cs []
    else splitOnCharCore sep cs (c :: acc)

def splitOnChar (sep : Char) (s : List Char) : List (List Char) :=
  splitOnCharCore sep s []

def digitsToNatCore : List Char → Nat → Option Nat
  | [], acc => some acc
  | c :: cs, acc =>
    if c.isDigit then digitsToNatCore cs (acc * 10 + (c.toNat - 48)) else none

/-- Decimal parse of a nonempty digit string. -/
def digitsToNat? (cs : List Char) : Option Nat :=
  if cs.isEmpty then none else digitsToNatCore cs 0

/-- Partially parsed rule options (FREQ not yet seen). -/
structure RRuleOpts0 where
  freq : Option RRuleFreq := none
  interval : Nat := 1
  count : Option Nat := none
  deriving Repr, DecidableEq

def applyRRulePart (o : RRuleOpts0) (part : List Char) : Option RRuleOpts0 :=
  match splitOnChar '=' part with
  | [k, v] =>
    if (⟨k⟩ : String) = "FREQ" then
      if (⟨v⟩ : String) = "DAILY" then some { o with freq := some .daily }
      else if (⟨v⟩ : String) = "WEEKLY" then some { o with freq := some .weekly }
      else none
    else if (⟨k⟩ : String) = "COUNT" then
      (digitsToNat? v).map (fun n => { o with count := some n })
    else if (⟨k⟩ : String) = "INTERVAL" then
      (digitsToNat? v).map (fun n => { o with interval := n })
    else none
  | _ => none

def parseRRuleChunks : RRuleOpts0 → List (List Char) → Option RRuleOpts0
  | o, [] => some o
  | o, p :: ps =>
    match applyRRulePart o p with
    | some o' => parseRRuleChunks o' ps
    | none => none

/-- Model of `RRule.parseString` on the embedded fragment: split the rule on
`';'`, read `KEY=VALUE` parts, and require a FREQ. -/
def parseRRuleString (s : String) : Option RRuleOptions :=
  match parseRRuleChunks {} (splitOnChar ';' s.data) with
  | some o =>
    match o.freq with
    | some f => some { freq := f, interval := o.interval, count := o.count, dtstart := 0 }
    | none => none
  | none => none

/-- Milliseconds between consecutive occurrences. -/
def RRuleOptions.stepMs (o : RRuleOptions) : Int :=
  match o.freq with
  | .daily => (o.interval : Int) * msPerDay
  | .weekly => (o.interval : Int) * 7 * msPerDay

/-- All occurrences of the rule up to `before` (inclusive), anchored at
`dtstart` and capped by COUNT. -/
def rruleOccurrences (o : RRuleOptions) (before : Int) : List Int :=
  let step := o.stepMs
  if o.dtstart > before then []
  else if step ≤ 0 then []
  else
    let kmax := ((before - o.dtstart).fdiv step).toNat
    let n :=
      match o.count with
      | some c => min c (kmax + 1)
      | none => kmax + 1
    (List.range n).map (fun k => o.dtstart + (k : Int) * step)

/-- Model of `rule.between(after, before, inc)`. -/
def rruleBetween (o : RRuleOptions) (after before : Int) (inc : Bool) : List Int :=
  (rruleOccurrences o before).filter (fun t =>
    if inc then decide (after ≤ t) && decide (t ≤ before)
    else decide (after < t) && decide (t < before))

/-! ### Recurrence Expander and fetch pipeline -/

structure TimeRange where
  start : Int
  end_ : Int
  deriving Repr, DecidableEq

/-- Modelled from the spec: `newDateFromYMD` lives in
`src/lib/date-utils.ts`, which is absent from the provided sources; per
the spec's window description ("Jan 1 of year-1 through Dec 31 of
year+1") and the call sites' comments it constructs a Date at midnight
of the given year / 0-based month index / day. -/
def newDateFromYMD (y : Int) (monthIndex day : Nat) : Int :=
  utcMidnightMillis y (monthIndex + 1) day

/-- `CalDAVCalendarService.getTimeRange` (same in the WebCal variant):
1 year back, January 1st, through the end date `newDateFromYMD(year+1, 11, 31)`. -/
def getTimeRange (now : Int) : TimeRange :=
  { start := newDateFromYMD (yearOfMillis now - 1) 0 1
    end_ := newDateFromYMD (yearOfMillis now + 1) 11 31 }

/-- `expandMasterEvent`: parse the master's RRULE seeded with its start,
enumerate occurrences inside the sync window (inclusive), and synthesize
one instance per occurrence; any failure yields `[]`. -/
def expandMasterEvent (now : Int) (masterEvent : CalendarEvent) : List CalendarEvent :=
  if !masterEvent.isRecurring then []
  else
    match masterEvent.recurrenceRule with
    | none => []
    | some ruleStr =>
      match parseRRuleString ruleStr with
      | none => []
      | some options =>
        let timeRange := getTimeRange now
        let rule := { options with dtstart := masterEvent.start }
        let occurrences := rruleBetween rule timeRange.start timeRange.end_ true
        occurrences.map (fun date =>
          let duration := masterEvent.end_ - masterEvent.start
          let endDate := date + duration
          { masterEvent with
              externalEventId := masterEvent.externalEventId
              start := date
              end_ := endDate
              isRecurring := true
              recurrenceRule := masterEvent.recurrenceRule
              isMaster := false
              recurringEventId := masterEvent.externalEventId })

/-- `expandRecurringEvents`: expand every recurring event of the fetched
batch, accumulating the instances in order. -/
def expandRecurringEvents (now : Int) (masterEvents : List CalendarEvent) : List CalendarEvent :=
  masterEvents.flatMap (fun e => if e.isRecurring then expandMasterEvent now e else [])

/-- `CalDAVCalendarService.getEvents`: fetch the normalized master/\
standalone events and append the expanded instances; every error is
caught and yields `[]`.  The network+parse+normalize stage is the
`fetchResult` parameter. -/
def getEvents (now : Int) (fetchResult : Except String (List CalendarEvent)) :
    List CalendarEvent :=
  match fetchResult with
  | .error _ => []
  | .ok masterEvents => masterEvents ++ expandRecurringEvents now masterEvents

/-! ### Reconciliation against local storage

`prisma.calendarEvent.create` is modelled by `dbCreateEvent`, which
assigns the next id; the per-event `try/catch` around each create is an
explicit failure oracle `fails` on the prepared row data (a failing
create is logged and skipped in the source).  `noFailure` is the oracle
of a nominally-functioning store. -/

structure SyncResult where
  added : List CalendarEvent
  updated : List CalendarEvent
  deleted : List String
  deriving Repr, DecidableEq

/-- Oracle for a store whose creates all succeed. -/
def noFailure : CalendarEvent → Bool := fun _ => false

/-- Insert a row, assigning the next storage id. -/
def dbCreateEvent (data : CalendarEvent) (db : DbState) : CalendarEvent × DbState :=
  let created := { data with id := toString db.nextId }
  (created, { db with events := db.events ++ [created], nextId := db.nextId + 1 })

/-- JS `Map` as an association list: `set` overwrites, later entries win. -/
def mapSet (m : List (String × String)) (k v : String) : List (String × String) :=
  if m.any (fun p => p.1 = k) then m.map (fun p => if p.1 = k then (k, v) else p)
  else m ++ [(k, v)]

def mapGet (m : List (String × String)) (k : String) : Option String :=
  (m.find? (fun p => p.1 = k)).map (fun p => p.2)

def mapHas (m : List (String × String)) (k : String) : Bool :=
  (m.find? (fun p => p.1 = k)).isSome

/-- The row data prepared for a master event by `createMasterEvents`
(`event.title || "Untitled Event"` and `event.isRecurring || false` are
JS falsiness defaults). -/
def masterEventData (feedId : String) (event : CalendarEvent) : CalendarEvent :=
  { id := ""
    feedId := feedId
    externalEventId := event.externalEventId
    title := if event.title = "" then "Untitled Event" else event.title
    description := event.description
    start := event.start
    end_ := event.end_
    location := event.location
    isRecurring := event.isRecurring
    recurrenceRule := event.recurrenceRule
    allDay := event.allDay
    status := event.status
    isMaster := true
    masterEventId := none
    recurringEventId := none }

/-- The master link resolved for an instance:
`if (event.recurringEventId && map.has(rid)) masterEventId = map.get(rid) || null`. -/
def resolveMasterLink (masterEventMap : List (String × String))
    (event : CalendarEvent) : Option String :=
  match event.recurringEventId with
  | none => none
  | some rid =>
    if rid = "" then none
    else if mapHas masterEventMap rid then
      match mapGet masterEventMap rid with
      | some v => if v = "" then none else some v
      | none => none
    else none

/-- The row data prepared for an instance event by `createInstanceEvents`. -/
def instanceEventData (masterEventMap : List (String × String)) (feedId : String)
    (event : CalendarEvent) : CalendarEvent :=
  { id := ""
    feedId := feedId
    externalEventId := event.externalEventId
    title := if event.title = "" then "Untitled Event" else event.title
    description := event.description
    start := event.start
    end_ := event.end_
    location := event.location
    isRecurring := event.isRecurring
    recurrenceRule := event.recurrenceRule
    allDay := event.allDay
    status := event.status
    isMaster := false
    masterEventId := resolveMasterLink masterEventMap event
    recurringEventId := event.recurringEventId }

/-- `createMasterEvents`: create the master rows one by one in order; a
failing create is logged and skipped, the loop continues. -/
def createMasterEvents (fails : CalendarEvent → Bool) (masterEvents : List CalendarEvent)
    (feedId : String) (db : DbState) : List CalendarEvent × DbState :=
  match masterEvents with
  | [] => ([], db)
  | event :: rest =>
    let data := masterEventData feedId event
    if fails data then createMasterEvents fails rest feedId db
    else
      let createdEvent := (dbCreateEvent data db).1
      let db' := (dbCreateEvent data db).2
      (createdEvent :: (createMasterEvents fails rest feedId db').1,
        (createMasterEvents fails rest feedId db').2)

/-- `createInstanceEvents`: create the instance rows in order, resolving
each master link through the map; a failing create is skipped. -/
def createInstanceEvents (fails : CalendarEvent → Bool) (instanceEvents : List CalendarEvent)
    (masterEventMap : List (String × String)) (feedId : String) (db : DbState) :
    List CalendarEvent × DbState :=
  match instanceEvents with
  | [] => ([], db)
  | event :: rest =>
    let data := instanceEventData masterEventMap feedId event
    if fails data then createInstanceEvents fails rest masterEventMap feedId db
    else
      let createdEvent := (dbCreateEvent data db).1
      let db' := (dbCreateEvent data db).2
      (createdEvent :: (createInstanceEvents fails rest masterEventMap feedId db').1,
        (createInstanceEvents fails rest masterEventMap feedId db').2)

/-- The `externalEventId → storage id` map built from the created master
rows (`if (event.externalEventId) map.set(...)`; `""` is falsy). -/
def buildMasterMap (createdMasterEvents : List CalendarEvent) : List (String × String) :=
  createdMasterEvents.foldl
    (fun m event =>
      match event.externalEventId with
      | some eid => if eid = "" then m else mapSet m eid event.id
      | none => m)
    []

/-- `createAllEvents`: split the batch into masters and instances, persist
all masters first, build the id map, then persist the instances. -/
def createAllEvents (fails : CalendarEvent → Bool) (events : List CalendarEvent)
    (feedId : String) (db : DbState) : SyncResult × DbState :=
  let masterEvents := events.filter (fun e => e.isMaster)
  let instanceEvents := events.filter (fun e => !e.isMaster)
  let createdMasterEvents := (createMasterEvents fails masterEvents feedId db).1
  let db1 := (createMasterEvents fails masterEvents feedId db).2
  let masterEventMap := buildMasterMap createdMasterEvents
  let createdInstanceEvents :=
    (createInstanceEvents fails instanceEvents masterEventMap feedId db1).1
  let db2 := (createInstanceEvents fails instanceEvents masterEventMap feedId db1).2
  ({ added := createdMasterEvents ++ createdInstanceEvents, updated := [], deleted := [] }, db2)

/-! ### Sync Orchestrator -/

/-- The feed filter of `CalDAVCalendarService.syncCalendar`'s
`prisma.calendarFeed.findFirst`. -/
def caldavFeedFilter (id calendarPath accountId userId : String) (f : CalendarFeed) : Bool :=
  decide (f.id = id ∧ f.url = some calendarPath ∧ f.accountId = some accountId ∧
    f.ftype = "CALDAV" ∧ f.userId = userId)

/-- `prisma.calendarEvent.deleteMany({ where: { feedId } })`. -/
def deleteFeedEvents (feedId : String) (db : DbState) : DbState :=
  { db with events := db.events.filter (fun e => !(decide (e.feedId = feedId))) }

/-- `prisma.calendarFeed.update({ where: { id, userId }, data })`. -/
def updateFeedRow (id userId : String) (patch : CalendarFeed → CalendarFeed)
    (db : DbState) : DbState :=
  { db with
      feeds := db.feeds.map (fun f =>
        if f.id = id ∧ f.userId = userId then patch f else f) }

/-- `CalDAVCalendarService.syncCalendar`: resolve the feed (throw when
absent), delete every event row of the feed, fetch + normalize + expand
(`getEvents`, which swallows fetch errors into `[]`), recreate all rows,
then stamp `lastSync` (the error field is never written). -/
def syncCalendar (fails : CalendarEvent → Bool) (now : Int)
    (fetchResult : Except String (List CalendarEvent))
    (id calendarPath accountId userId : String) (db : DbState) :
    Except String (SyncResult × DbState) :=
  match db.feeds.find? (caldavFeedFilter id calendarPath accountId userId) with
  | none => .error ("Calendar feed not found for path: " ++ calendarPath)
  | some feed =>
    let db1 := deleteFeedEvents feed.id db
    let events := getEvents now fetchResult
    let result := (createAllEvents fails events feed.id db1).1
    let db2 := (createAllEvents fails events feed.id db1).2
    let db3 := updateFeedRow feed.id userId
      (fun f => { f with lastSync := some now, syncToken := feed.syncToken }) db2
    .ok (result, db3)

/-- The feed filter of `WebCalCalendarService.syncCalendar`. -/
def webcalFeedFilter (id webCalUrl userId : String) (f : CalendarFeed) : Bool :=
  decide (f.id = id ∧ f.url = some webCalUrl ∧ f.ftype = "WEBCAL" ∧ f.userId = userId)

/-- `WebCalCalendarService.syncCalendar` (`src/lib/webcal-calendar.ts`):
same delete-then-recreate shape; its `getEvents` parses the fetched ICS
into normalized events without a recurrence-expansion pass, and swallows
errors into `[]`. -/
def webcalSyncCalendar (fails : CalendarEvent → Bool) (now : Int)
    (fetchResult : Except String (List CalendarEvent))
    (id webCalUrl userId : String) (db : DbState) :
    Except String (SyncResult × DbState) :=
  match db.feeds.find? (webcalFeedFilter id webCalUrl userId) with
  | none => .error ("Calendar feed not found for WebCal: " ++ webCalUrl)
  | some feed =>
    let db1 := deleteFeedEvents feed.id db
    let events :=
      match fetchResult with
      | .error _ => []
      | .ok evs => evs
    let result := (createAllEvents fails events feed.id db1).1
    let db2 := (createAllEvents fails events feed.id db1).2
    let db3 := updateFeedRow feed.id userId
      (fun f => { f with lastSync := some now, syncToken := feed.syncToken }) db2
    .ok (result, db3)

/-! ### WebCal add route (`POST /api/calendar/webcal/add`) -/

/-- Result of `fetchWebCalInfo`: the fetched ICS text and the response's
`content-type` header (absent header modelled as `none`). -/
structure WebCalInfo where
  webCalText : String
  headerContentType : Option String
  deriving Repr, DecidableEq

structure RouteResponse where
  status : Nat
  error : Option String
  success : Bool
  deriving Repr, DecidableEq

/-- JS `text.split(/[\r\n:]+/)`: split on runs of CR/LF/colon; a leading
or trailing run still yields an empty boundary segment. -/
def splitRunsCore (isSep : Char → Bool) : List Char → List Char → List (List Char)
  | [], acc => [acc.reverse]
  | c :: cs, acc =>
    if isSep c then
      match cs with
      | [] => [acc.reverse, []]
      | c' :: _ =>
        if isSep c' then splitRunsCore isSep cs acc
        else acc.reverse :: splitRunsCore isSep cs []
    else splitRunsCore isSep cs (c :: acc)

/-- The calendar name the route scrapes from the ICS text:
`webCalText.split(/[\r\n:]+/, 8)[7]` (undefined when fewer tokens). -/
def webCalNameOf (text : String) : Option String :=
  ((splitRunsCore (fun c => c = '\r' ∨ c = '\n' ∨ c = ':') text.data [])[7]?).map
    (fun cs => (⟨cs⟩ : String))

/-- The route's duplicate-subscription filter; a missing name (JS
`undefined`) drops that condition from the Prisma `where`. -/
def existingWebCalFilter (url userId calendarId : String) (webCalName : Option String)
    (f : CalendarFeed) : Bool :=
  decide (f.url = some url) && decide (f.userId = userId) && decide (f.id = calendarId) &&
    (match webCalName with
     | none => true
     | some nm => decide (f.name = nm))

/-- The `POST /api/calendar/webcal/add` handler, after authentication:
validate the URL, fetch the ICS, reject any response whose content type
does not start with `text/calendar` as 404 "WebCal not found", then
create the feed row and attempt an initial sync (whose failure is
swallowed). `fetchResult` models `fetchWebCalInfo` (a thrown fetch is
`.error`); `syncFetch`/`syncFails` feed the initial sync's own fetch and
store. -/
def webcalAddPOST (webCalUrl : Option String) (calendarId userId : String)
    (fetchResult : Except String WebCalInfo) (syncFails : CalendarEvent → Bool)
    (syncFetch : Except String (List CalendarEvent)) (now : Int) (newFeedId : String)
    (db : DbState) : RouteResponse × DbState :=
  match webCalUrl with
  | none => (⟨400, some "Web calendar URL is required", false⟩, db)
  | some url =>
    if url = "" then (⟨400, some "Web calendar URL is required", false⟩, db)
    else
      match fetchResult with
      | .error _ => (⟨500, some "Failed to add WebCal calendar", false⟩, db)
      | .ok webCal =>
        let ctOk :=
          match webCal.headerContentType with
          | some ct => strStartsWith ct "text/calendar"
          | none => false
        if !ctOk then (⟨404, some "WebCal not found", false⟩, db)
        else
          let webCalName := webCalNameOf webCal.webCalText
          match db.feeds.find? (existingWebCalFilter url userId calendarId webCalName) with
          | some _ => (⟨200, none, true⟩, db)
          | none =>
            match webCalName with
            | none => (⟨500, some "Failed to add WebCal calendar", false⟩, db)
            | some nm =>
              let newFeed : CalendarFeed :=
                { id := newFeedId
                  userId := userId
                  accountId := none
                  ftype := "WEBCAL"
                  url := some url
                  name := nm
                  color := some "#BF616A"
                  enabled := true
                  lastSync := some now
                  syncToken := none
                  error := none }
              let db2 := { db with feeds := db.feeds ++ [newFeed] }
              let db3 :=
                match db2.feeds.find? (webcalFeedFilter calendarId url userId) with
                | none => db2
                | some _ =>
                  match webcalSyncCalendar syncFails now syncFetch newFeedId url userId db2 with
                  | .error _ => db2
                  | .ok (_, dbAfterSync) =>
                    updateFeedRow newFeedId userId (fun f => { f with lastSync := some now })
                      dbAfterSync
              (⟨200, none, true⟩, db3)

/-! ### Concrete fixtures used by witnesses and counterexamples -/

/-- A sync moment inside 2024 (2024-06-15T12:00Z). -/
def nowSync : Int := utcMillis 2024 6 15 12 0

/-- Daily master: `FREQ=DAILY;COUNT=5` anchored at 2024-01-01T09:00Z,
one hour long. -/
def masterC4 : CalendarEvent :=
  { title := "Standup"
    externalEventId := some "uid1"
    start := utcMillis 2024 1 1 9 0
    end_ := utcMillis 2024 1 1 10 0
    isRecurring := true
    isMaster := true
    recurrenceRule := some "FREQ=DAILY;COUNT=5" }

/-- Master whose single occurrence is at 2025-12-31T09:00Z: on Dec 31 of
year+1 (for a 2024 sync), but after that day's midnight bound. -/
def masterDec31 : CalendarEvent :=
  { externalEventId := some "m"
    start := utcMillis 2025 12 31 9 0
    end_ := utcMillis 2025 12 31 10 0
    isRecurring := true
    isMaster := true
    recurrenceRule := some "FREQ=DAILY;COUNT=1" }

/-- Master whose single occurrence is exactly the window's end bound
(midnight starting 2025-12-31). -/
def masterBoundary : CalendarEvent :=
  { externalEventId := some "mb"
    start := utcMidnightMillis 2025 12 31
    end_ := utcMidnightMillis 2025 12 31 + 3600000
    isRecurring := true
    isMaster := true
    recurrenceRule := some "FREQ=DAILY;COUNT=1" }

/-- A CalDAV feed fixture. -/
def feedF1 : CalendarFeed :=
  { id := "f1"
    userId := "u1"
    accountId := some "a1"
    ftype := "CALDAV"
    url := some "/cal/home"
    name := "Home"
    lastSync := some 5
    syncToken := none
    error := none }

/-- A second feed, to observe that other feeds' rows are untouched. -/
def feedF2 : CalendarFeed :=
  { id := "f2"
    userId := "u1"
    accountId := some "a1"
    ftype := "CALDAV"
    url := some "/cal/work"
    name := "Work"
    lastSync := some 7 }

/-- A stale row owned by `feedF1` from an earlier sync. -/
def staleRow : CalendarEvent :=
  { id := "3", feedId := "f1", externalEventId := some "old-uid", title := "Old" }

/-- A row owned by `feedF2`. -/
def otherFeedRow : CalendarEvent :=
  { id := "4", feedId := "f2", externalEventId := some "other-uid", title := "Other" }

/-- Store fixture holding both feeds and one row each. -/
def dbW : DbState :=
  { feeds := [feedF1, feedF2], events := [staleRow, otherFeedRow], nextId := 10 }

/-- A standalone (non-recurring) normalized event. -/
def soloEvent : CalendarEvent :=
  { title := "Solo"
    externalEventId := some "solo-uid"
    start := utcMillis 2024 3 5 13 0
    end_ := utcMillis 2024 3 5 14 0 }

/-- Three standalone events; the middle one is the one `failsOnM2` rejects. -/
def eventM1 : CalendarEvent :=
  { title := "One", externalEventId := some "m1", start := 1000, end_ := 2000 }

def eventM2 : CalendarEvent :=
  { title := "Two", externalEventId := some "m2", start := 3000, end_ := 4000 }

def eventM3 : CalendarEvent :=
  { title := "Three", externalEventId := some "m3", start := 5000, end_ := 6000 }

/-- Failure oracle rejecting exactly the row with external id `"m2"`. -/
def failsOnM2 : CalendarEvent → Bool :=
  fun e => decide (e.externalEventId = some "m2")

/-- An instance event whose nominal master (`ghost`) is absent. -/
def orphanInstance : CalendarEvent :=
  { title := "Orphan"
    externalEventId := some "ghost_2024-03-05"
    recurringEventId := some "ghost"
    start := utcMillis 2024 3 5 9 0
    end_ := utcMillis 2024 3 5 10 0 }

/-- `feedF1` as a sync at `nowSync` leaves it. -/
def feedF1Synced : CalendarFeed := { feedF1 with lastSync := some nowSync }

/-- The store a fetch-failing sync of `feedF1` leaves behind. -/
def dbAfterC6 : DbState :=
  { feeds := [feedF1Synced, feedF2], events := [otherFeedRow], nextId := 10 }

/-- The row a sync of `soloEvent` creates first (storage id 10). -/
def soloRow : CalendarEvent :=
  { id := "10", feedId := "f1", externalEventId := some "solo-uid", title := "Solo",
    start := utcMillis 2024 3 5 13 0, end_ := utcMillis 2024 3 5 14 0 }

/-- The result of the first sync of `[soloEvent]` on `dbW`. -/
def r1W : SyncResult := { added := [soloRow], updated := [], deleted := [] }

/-- The store after the first sync of `[soloEvent]` on `dbW`. -/
def db1W : DbState :=
  { feeds := [feedF1Synced, feedF2], events := [otherFeedRow, soloRow], nextId := 11 }

/-- The same row as recreated by the second sync (storage id 11). -/
def soloRow2 : CalendarEvent := { soloRow with id := "11" }

/-- The result of the second sync of `[soloEvent]`. -/
def r2W : SyncResult := { added := [soloRow2], updated := [], deleted := [] }

/-- The store after the second sync of `[soloEvent]`. -/
def db2W : DbState :=
  { feeds := [feedF1Synced, feedF2], events := [otherFeedRow, soloRow2], nextId := 12 }

/-- A distinguished result-projection: forget the storage-assigned id. -/
def stripId (e : CalendarEvent) : CalendarEvent := { e with id := "" }

/-- The external-id sequence a successful CalDAV sync persists for a
fetched batch (masters first, then instances), used to compare two runs. -/
def syncedExtIds (now : Int) (evs : List CalendarEvent) : List (Option String) :=
  ((getEvents now (.ok evs)).filter (fun e => e.isMaster)).map (fun e => e.externalEventId)
    ++ ((getEvents now (.ok evs)).filter (fun e => !e.isMaster)).map (fun e => e.externalEventId)

/-- The occurrence timestamps `expandMasterEvent` enumerates for a master
whose rule parsed to `opts`: the rule re-anchored at the master's start,
taken over the sync window inclusively. -/
def occurrencesOf (now : Int) (m : CalendarEvent) (opts : RRuleOptions) : List Int :=
  rruleBetween { opts with dtstart := m.start } (getTimeRange now).start
    (getTimeRange now).end_ true

/-! ## Theorems -/

/-- Stripping the id from a freshly created row recovers its input data. -/
theorem stripId_dbCreateEvent (data : CalendarEvent) (db : DbState) :
    stripId (dbCreateEvent data db).1 = stripId data := rfl

/-- Master row data carries no id, so `stripId` fixes it. -/
theorem stripId_masterEventData (feedId : String) (e : CalendarEvent) :
    stripId (masterEventData feedId e) = masterEventData feedId e := rfl

/-- Instance row data carries no id, so `stripId` fixes it. -/
theorem stripId_instanceEventData (m : List (String × String)) (feedId : String)
    (e : CalendarEvent) :
    stripId (instanceEventData m feedId e) = instanceEventData m feedId e := rfl

/-- `createMasterEvents` structure: new rows are appended in order, feeds
are untouched, the created rows are exactly the non-failing masters' data
(ids stripped), and every created row is a master row of the feed. -/
theorem createMasterEvents_spec (fails : CalendarEvent → Bool)
    (ms : List CalendarEvent) (feedId : String) (db : DbState) :
    ((createMasterEvents fails ms feedId db).2.events
        = db.events ++ (createMasterEvents fails ms feedId db).1) ∧
    ((createMasterEvents fails ms feedId db).2.feeds = db.feeds) ∧
    ((createMasterEvents fails ms feedId db).1.map stripId
        = (ms.filter (fun e => !fails (masterEventData feedId e))).map
            (fun e => masterEventData feedId e)) ∧
    (∀ e ∈ (createMasterEvents fails ms feedId db).1,
        e.feedId = feedId ∧ e.isMaster = true) := by
  induction ms generalizing db with
  | nil => simp [createMasterEvents]
  | cons ev rest ih =>
    cases hf : fails (masterEventData feedId ev) with
    | true =>
      have hstep : createMasterEvents fails (ev :: rest) feedId db
          = createMasterEvents fails rest feedId db := by
        simp [createMasterEvents, hf]
      rw [hstep]
      simpa [hf] using ih db
    | false =>
      have hstep : createMasterEvents fails (ev :: rest) feedId db
          = ((dbCreateEvent (masterEventData feedId ev) db).1 ::
                (createMasterEvents fails rest feedId
                  (dbCreateEvent (masterEventData feedId ev) db).2).1,
              (createMasterEvents fails rest feedId
                (dbCreateEvent (masterEventData feedId ev) db).2).2) := by
        simp [createMasterEvents, hf]
      have ihd := ih (dbCreateEvent (masterEventData feedId ev) db).2
      rw [hstep]
      refine ⟨?_, ?_, ?_, ?_⟩
      · show (createMasterEvents fails rest feedId
            (dbCreateEvent (masterEventData feedId ev) db).2).2.events = _
        rw [ihd.1]
        simp [dbCreateEvent]
      · show (createMasterEvents fails rest feedId
            (dbCreateEvent (masterEventData feedId ev) db).2).2.feeds = _
        rw [ihd.2.1]
        simp [dbCreateEvent]
      · show List.map stripId (_ :: _) = _
        rw [List.map_cons, ihd.2.2.1, stripId_dbCreateEvent, stripId_masterEventData,
          List.filter_cons]
        simp [hf]
      · intro e he
        rcases List.mem_cons.mp he with h | h
        · subst h; simp [dbCreateEvent, masterEventData]
        · exact ihd.2.2.2 e h

/-- `createInstanceEvents` structure: same shape as the master pass, with
every created row a non-master row of the feed carrying the resolved
master link. -/
theorem createInstanceEvents_spec (fails : CalendarEvent → Bool)
    (is : List CalendarEvent) (masterEventMap : List (String × String))
    (feedId : String) (db : DbState) :
    ((createInstanceEvents fails is masterEventMap feedId db).2.events
        = db.events ++ (createInstanceEvents fails is masterEventMap feedId db).1) ∧
    ((createInstanceEvents fails is masterEventMap feedId db).2.feeds = db.feeds) ∧
    ((createInstanceEvents fails is masterEventMap feedId db).1.map stripId
        = (is.filter (fun e => !fails (instanceEventData masterEventMap feedId e))).map
            (fun e => instanceEventData masterEventMap feedId e)) ∧
    (∀ e ∈ (createInstanceEvents fails is masterEventMap feedId db).1,
        e.feedId = feedId ∧ e.isMaster = false) := by
  induction is generalizing db with
  | nil => simp [createInstanceEvents]
  | cons ev rest ih =>
    cases hf : fails (instanceEventData masterEventMap feedId ev) with
    | true =>
      have hstep : createInstanceEvents fails (ev :: rest) masterEventMap feedId db
          = createInstanceEvents fails rest masterEventMap feedId db := by
        simp [createInstanceEvents, hf]
      rw [hstep]
      simpa [hf] using ih db
    | false =>
      have hstep : createInstanceEvents fails (ev :: rest) masterEventMap feedId db
          = ((dbCreateEvent (instanceEventData masterEventMap feedId ev) db).1 ::
                (createInstanceEvents fails rest masterEventMap feedId
                  (dbCreateEvent (instanceEventData masterEventMap feedId ev) db).2).1,
              (createInstanceEvents fails rest masterEventMap feedId
                (dbCreateEvent (instanceEventData masterEventMap feedId ev) db).2).2) := by
        simp [createInstanceEvents, hf]
      have ihd := ih (dbCreateEvent (instanceEventData masterEventMap feedId ev) db).2
      rw [hstep]
      refine ⟨?_, ?_, ?_, ?_⟩
      · show (createInstanceEvents fails rest masterEventMap feedId
            (dbCreateEvent (instanceEventData masterEventMap feedId ev) db).2).2.events = _
        rw [ihd.1]
        simp [dbCreateEvent]
      · show (createInstanceEvents fails rest masterEventMap feedId
            (dbCreateEvent (instanceEventData masterEventMap feedId ev) db).2).2.feeds = _
        rw [ihd.2.1]
        simp [dbCreateEvent]
      · show List.map stripId (_ :: _) = _
        rw [List.map_cons, ihd.2.2.1, stripId_dbCreateEvent, stripId_instanceEventData,
          List.filter_cons]
        simp [hf]
      · intro e he
        rcases List.mem_cons.mp he with h | h
        · subst h; simp [dbCreateEvent, instanceEventData]
        · exact ihd.2.2.2 e h

/-- `stripId` keeps every field but the storage id. -/
theorem stripId_externalEventId (e : CalendarEvent) :
    (stripId e).externalEventId = e.externalEventId := rfl

/-- Projecting external ids through a `stripId`-level correspondence. -/
theorem map_extId_of_map_stripId {l₁ l₂ : List CalendarEvent}
    (h : l₁.map stripId = l₂.map stripId) :
    l₁.map (fun e => e.externalEventId) = l₂.map (fun e => e.externalEventId) := by
  have h1 : (l₁.map stripId).map (fun e => e.externalEventId)
      = (l₂.map stripId).map (fun e => e.externalEventId) := by rw [h]
  simpa [List.map_map, Function.comp] using h1

/-- External ids survive projection through a `stripId`-level row/data
correspondence whenever the data builder preserves them. -/
theorem map_extId_eq_of_stripId {l l' : List CalendarEvent} {f : CalendarEvent → CalendarEvent}
    (h : l.map stripId = l'.map f)
    (hf : ∀ e, (f e).externalEventId = e.externalEventId) :
    l.map (fun e => e.externalEventId) = l'.map (fun e => e.externalEventId) := by
  have h1 := congrArg (List.map (fun e => e.externalEventId)) h
  have e1 : ((fun e : CalendarEvent => e.externalEventId) ∘ stripId)
      = (fun e : CalendarEvent => e.externalEventId) := by
    funext e; rfl
  have e2 : ((fun e : CalendarEvent => e.externalEventId) ∘ f)
      = (fun e : CalendarEvent => e.externalEventId) := by
    funext e; exact hf e
  rw [List.map_map, List.map_map, e1, e2] at h1
  exact h1

theorem masterEventData_extId (feedId : String) (e : CalendarEvent) :
    (masterEventData feedId e).externalEventId = e.externalEventId := rfl

theorem instanceEventData_extId (m : List (String × String)) (feedId : String)
    (e : CalendarEvent) :
    (instanceEventData m feedId e).externalEventId = e.externalEventId := rfl

theorem updateFeedRow_events (i u : String) (p : CalendarFeed → CalendarFeed)
    (db : DbState) : (updateFeedRow i u p db).events = db.events := rfl

theorem deleteFeedEvents_events (i : String) (db : DbState) :
    (deleteFeedEvents i db).events
      = db.events.filter (fun e => !(decide (e.feedId = i))) := rfl

theorem deleteFeedEvents_feeds (i : String) (db : DbState) :
    (deleteFeedEvents i db).feeds = db.feeds := rfl

/-- `createAllEvents` structure: the added list is the created master rows
followed by the created instance rows, rows are appended to the store in
that order, feeds are untouched, every added row belongs to the feed, and
the added external ids are those of the non-failing masters then the
non-failing instances. -/
theorem createAllEvents_spec (fails : CalendarEvent → Bool) (events : List CalendarEvent)
    (feedId : String) (db : DbState) :
    ((createAllEvents fails events feedId db).1.added
        = (createMasterEvents fails (events.filter (fun e => e.isMaster)) feedId db).1
          ++ (createInstanceEvents fails (events.filter (fun e => !e.isMaster))
                (buildMasterMap
                  (createMasterEvents fails (events.filter (fun e => e.isMaster)) feedId db).1)
                feedId
                (createMasterEvents fails (events.filter (fun e => e.isMaster)) feedId db).2).1) ∧
    ((createAllEvents fails events feedId db).2.events
        = db.events ++ (createAllEvents fails events feedId db).1.added) ∧
    ((createAllEvents fails events feedId db).2.feeds = db.feeds) ∧
    (∀ e ∈ (createAllEvents fails events feedId db).1.added, e.feedId = feedId) ∧
    ((createAllEvents fails events feedId db).1.added.map (fun e => e.externalEventId)
        = ((events.filter (fun e => e.isMaster)).filter
            (fun e => !fails (masterEventData feedId e))).map (fun e => e.externalEventId)
          ++ ((events.filter (fun e => !e.isMaster)).filter
              (fun e => !fails (instanceEventData
                (buildMasterMap
                  (createMasterEvents fails (events.filter (fun e => e.isMaster)) feedId db).1)
                feedId e))).map (fun e => e.externalEventId)) := by
  have hm := createMasterEvents_spec fails (events.filter (fun e => e.isMaster)) feedId db
  have hi := createInstanceEvents_spec fails (events.filter (fun e => !e.isMaster))
    (buildMasterMap (createMasterEvents fails (events.filter (fun e => e.isMaster)) feedId db).1)
    feedId
    (createMasterEvents fails (events.filter (fun e => e.isMaster)) feedId db).2
  have hadded : (createAllEvents fails events feedId db).1.added
      = (createMasterEvents fails (events.filter (fun e => e.isMaster)) feedId db).1
        ++ (createInstanceEvents fails (events.filter (fun e => !e.isMaster))
              (buildMasterMap
                (createMasterEvents fails (events.filter (fun e => e.isMaster)) feedId db).1)
              feedId
              (createMasterEvents fails (events.filter (fun e => e.isMaster)) feedId db).2).1 :=
    rfl
  refine ⟨hadded, ?_, ?_, ?_, ?_⟩
  · show (createInstanceEvents _ _ _ _ _).2.events = _
    rw [hi.1, hm.1, hadded]
    simp
  · show (createInstanceEvents _ _ _ _ _).2.feeds = _
    rw [hi.2.1, hm.2.1]
  · intro e he
    rw [hadded] at he
    rcases List.mem_append.mp he with h | h
    · exact (hm.2.2.2 e h).1
    · exact (hi.2.2.2 e h).1
  · rw [hadded, List.map_append,
      map_extId_eq_of_stripId hm.2.2.1 (masterEventData_extId feedId),
      map_extId_eq_of_stripId hi.2.2.1 (instanceEventData_extId _ feedId)]

/-- C8: During reconciliation all master events are persisted before any
instance event; each persisted instance's `masterEventId` is resolved
through the map from created masters' external ids to their new storage
ids; and an instance whose nominal master is absent from that map is
persisted with `masterEventId = null` rather than dropped. -/
theorem C8_masters_first_resolution (fails : CalendarEvent → Bool)
    (events : List CalendarEvent) (feedId : String) (db : DbState) :
    let masters := events.filter (fun e => e.isMaster)
    let instances := events.filter (fun e => !e.isMaster)
    let cm := (createMasterEvents fails masters feedId db).1
    let db1 := (createMasterEvents fails masters feedId db).2
    let M := buildMasterMap cm
    let ci := (createInstanceEvents fails instances M feedId db1).1
    ((createAllEvents fails events feedId db).1.added = cm ++ ci) ∧
    ((createAllEvents fails events feedId db).2.events = (db.events ++ cm) ++ ci) ∧
    (∀ e ∈ cm, e.isMaster = true) ∧
    (∀ e ∈ ci, e.isMaster = false) ∧
    (ci.map stripId
        = (instances.filter (fun e => !fails (instanceEventData M feedId e))).map
            (fun e => instanceEventData M feedId e)) ∧
    (∀ ev : CalendarEvent,
        (∀ rid, ev.recurringEventId = some rid → mapHas M rid = false) →
        (instanceEventData M feedId ev).masterEventId = none) := by
  intro masters instances cm db1 M ci
  have hm := createMasterEvents_spec fails masters feedId db
  have hi := createInstanceEvents_spec fails instances M feedId db1
  refine ⟨rfl, ?_, fun e he => (hm.2.2.2 e he).2, fun e he => (hi.2.2.2 e he).2,
    hi.2.2.1, ?_⟩
  · show (createInstanceEvents _ _ _ _ _).2.events = _
    rw [hi.1, hm.1]
  · intro ev hev
    show resolveMasterLink M ev = none
    unfold resolveMasterLink
    cases hrid : ev.recurringEventId with
    | none => rfl
    | some rid =>
      by_cases hempty : rid = ""
      · simp [hempty]
      · simp [hempty, hev rid hrid]

/-- Witness for C8: a batch holding one daily master and one orphan
instance (nominal master `ghost` absent from the map); the orphan is
persisted with a null master link. -/
theorem C8_masters_first_resolution_witness :
    ((instanceEventData
        (buildMasterMap
          (createMasterEvents noFailure
            ([masterC4, orphanInstance].filter (fun e => e.isMaster)) "f1" dbW).1)
        "f1" orphanInstance).masterEventId = none) ∧
    ((createAllEvents noFailure [masterC4, orphanInstance] "f1" dbW).1.added
        = (createMasterEvents noFailure
            ([masterC4, orphanInstance].filter (fun e => e.isMaster)) "f1" dbW).1
          ++ (createInstanceEvents noFailure
                ([masterC4, orphanInstance].filter (fun e => !e.isMaster))
                (buildMasterMap
                  (createMasterEvents noFailure
                    ([masterC4, orphanInstance].filter (fun e => e.isMaster)) "f1" dbW).1)
                "f1"
                (createMasterEvents noFailure
                  ([masterC4, orphanInstance].filter (fun e => e.isMaster)) "f1" dbW).2).1) :=
  ⟨(C8_masters_first_resolution noFailure [masterC4, orphanInstance] "f1" dbW).2.2.2.2.2
      orphanInstance
      (by
        intro rid h
        have hg : rid = "ghost" := by
          have : (some "ghost" : Option String) = some rid := h
          exact (Option.some.injEq _ _ ▸ this).symm
        subst hg
        decide),
    (C8_masters_first_resolution noFailure [masterC4, orphanInstance] "f1" dbW).1⟩

/-- With the feed resolved, `syncCalendar` is delete-then-recreate-then-
stamp, and never throws past the feed lookup. -/
theorem syncCalendar_ok (fails : CalendarEvent → Bool) (now : Int)
    (fr : Except String (List CalendarEvent)) (id calendarPath accountId userId : String)
    (db : DbState) (feed : CalendarFeed)
    (hfeed : db.feeds.find? (caldavFeedFilter id calendarPath accountId userId) = some feed) :
    syncCalendar fails now fr id calendarPath accountId userId db
      = .ok ((createAllEvents fails (getEvents now fr) feed.id (deleteFeedEvents feed.id db)).1,
          updateFeedRow feed.id userId
            (fun f => { f with lastSync := some now, syncToken := feed.syncToken })
            (createAllEvents fails (getEvents now fr) feed.id (deleteFeedEvents feed.id db)).2) := by
  simp [syncCalendar, hfeed]

/-- After recreation on a store holding no row of the feed, the feed's
rows are exactly the added ones. -/
theorem eventsOfFeed_after_create (fails : CalendarEvent → Bool)
    (E : List CalendarEvent) (feedId : String) (db1 : DbState)
    (hclean : ∀ e ∈ db1.events, ¬(e.feedId = feedId)) :
    eventsOfFeed (createAllEvents fails E feedId db1).2 feedId
      = (createAllEvents fails E feedId db1).1.added := by
  have hc := createAllEvents_spec fails E feedId db1
  unfold eventsOfFeed
  rw [hc.2.1, List.filter_append]
  have h1 : db1.events.filter (fun e => decide (e.feedId = feedId)) = [] :=
    List.filter_eq_nil_iff.mpr (fun e he => by simpa using hclean e he)
  have h2 : (createAllEvents fails E feedId db1).1.added.filter
      (fun e => decide (e.feedId = feedId)) = (createAllEvents fails E feedId db1).1.added :=
    List.filter_eq_self.mpr (fun e he => by simpa using hc.2.2.2.1 e he)
  rw [h1, h2, List.nil_append]

/-- Recreation adds no row of any other feed. -/
theorem otherRows_after_create (fails : CalendarEvent → Bool)
    (E : List CalendarEvent) (feedId : String) (db1 : DbState) :
    (createAllEvents fails E feedId db1).2.events.filter
        (fun e => !(decide (e.feedId = feedId)))
      = db1.events.filter (fun e => !(decide (e.feedId = feedId))) := by
  have hc := createAllEvents_spec fails E feedId db1
  rw [hc.2.1, List.filter_append]
  have h2 : (createAllEvents fails E feedId db1).1.added.filter
      (fun e => !(decide (e.feedId = feedId))) = [] :=
    List.filter_eq_nil_iff.mpr (fun e he => by simp [hc.2.2.2.1 e he])
  rw [h2, List.append_nil]

/-- The patch written by a sync changes neither the fields the feed
filter inspects … -/
theorem caldavFeedFilter_update_invariant (id path acct user : String)
    (i u : String) (now : Int) (tok : Option String) (f : CalendarFeed) :
    caldavFeedFilter id path acct user
        (if f.id = i ∧ f.userId = u then { f with lastSync := some now, syncToken := tok } else f)
      = caldavFeedFilter id path acct user f := by
  by_cases h : f.id = i ∧ f.userId = u
  · rw [if_pos h]; rfl
  · rw [if_neg h]

/-- … nor the feed's error field. -/
theorem error_update_invariant (i u : String) (now : Int) (tok : Option String)
    (f : CalendarFeed) :
    (if f.id = i ∧ f.userId = u then { f with lastSync := some now, syncToken := tok }
      else f).error = f.error := by
  by_cases h : f.id = i ∧ f.userId = u
  · rw [if_pos h]
  · rw [if_neg h]

/-- A successful CalDAV sync leaves the feed's rows carrying exactly the
synced external ids, and the feed remains resolvable afterwards with only
`lastSync`/`syncToken` rewritten. -/
theorem sync_run_summary (now : Int) (evs : List CalendarEvent)
    (id path acct user : String) (db : DbState) (feed : CalendarFeed)
    (r : SyncResult) (db' : DbState)
    (hfeed : db.feeds.find? (caldavFeedFilter id path acct user) = some feed)
    (hrun : syncCalendar noFailure now (.ok evs) id path acct user db = .ok (r, db')) :
    ((eventsOfFeed db' feed.id).map (fun e => e.externalEventId) = syncedExtIds now evs) ∧
    (db'.feeds.find? (caldavFeedFilter id path acct user)
        = some { feed with lastSync := some now, syncToken := feed.syncToken }) := by
  have h0 := syncCalendar_ok noFailure now (.ok evs) id path acct user db feed hfeed
  rw [h0] at hrun
  have hpair := Except.ok.inj hrun
  have hr : (createAllEvents noFailure (getEvents now (.ok evs)) feed.id
      (deleteFeedEvents feed.id db)).1 = r := congrArg Prod.fst hpair
  have hdb : updateFeedRow feed.id user
      (fun f => { f with lastSync := some now, syncToken := feed.syncToken })
      (createAllEvents noFailure (getEvents now (.ok evs)) feed.id
        (deleteFeedEvents feed.id db)).2 = db' := congrArg Prod.snd hpair
  subst hr hdb
  have hc := createAllEvents_spec noFailure (getEvents now (.ok evs)) feed.id
    (deleteFeedEvents feed.id db)
  constructor
  · have hclean : ∀ e ∈ (deleteFeedEvents feed.id db).events, ¬(e.feedId = feed.id) := by
      intro e he
      rw [deleteFeedEvents_events] at he
      have := (List.mem_filter.mp he).2
      simpa using this
    have hrows : eventsOfFeed
        (updateFeedRow feed.id user
          (fun f => { f with lastSync := some now, syncToken := feed.syncToken })
          (createAllEvents noFailure (getEvents now (.ok evs)) feed.id
            (deleteFeedEvents feed.id db)).2) feed.id
        = (createAllEvents noFailure (getEvents now (.ok evs)) feed.id
            (deleteFeedEvents feed.id db)).1.added := by
      unfold eventsOfFeed
      rw [updateFeedRow_events]
      exact eventsOfFeed_after_create noFailure _ feed.id _ hclean
    rw [hrows, hc.2.2.2.2]
    show _ = syncedExtIds now evs
    rw [syncedExtIds]
    congr 1 <;> · congr 1; apply List.filter_eq_self.mpr; intro a _; rfl
  · have hfeeds : (updateFeedRow feed.id user
        (fun f => { f with lastSync := some now, syncToken := feed.syncToken })
        (createAllEvents noFailure (getEvents now (.ok evs)) feed.id
          (deleteFeedEvents feed.id db)).2).feeds
        = db.feeds.map (fun f =>
            if f.id = feed.id ∧ f.userId = user
            then { f with lastSync := some now, syncToken := feed.syncToken } else f) := by
      show ((createAllEvents noFailure (getEvents now (.ok evs)) feed.id
          (deleteFeedEvents feed.id db)).2.feeds).map _ = _
      rw [hc.2.2.1, deleteFeedEvents_feeds]
    rw [hfeeds, List.find?_map]
    have hcomp : (caldavFeedFilter id path acct user ∘ fun f =>
        if f.id = feed.id ∧ f.userId = user
        then { f with lastSync := some now, syncToken := feed.syncToken } else f)
        = caldavFeedFilter id path acct user := by
      funext f
      exact caldavFeedFilter_update_invariant id path acct user feed.id user now
        feed.syncToken f
    rw [hcomp, hfeed]
    have hflt := List.find?_some hfeed
    have hprops := of_decide_eq_true hflt
    rw [Option.map_some', if_pos ⟨rfl, hprops.2.2.2.2⟩]

/-- C1: After a run of `syncCalendar` that completes without throwing
(here with a nominally-functioning store), the feed's rows are exactly
the newly added ones, every added row belongs to the feed, rows of other
feeds are neither created nor deleted, and the added rows' external ids
are a permutation of those derived from the fetch. -/
theorem C1_full_replacement (now : Int) (evs : List CalendarEvent)
    (id path acct user : String) (db : DbState) (feed : CalendarFeed)
    (r : SyncResult) (db' : DbState)
    (hfeed : db.feeds.find? (caldavFeedFilter id path acct user) = some feed)
    (hrun : syncCalendar noFailure now (.ok evs) id path acct user db = .ok (r, db')) :
    (eventsOfFeed db' feed.id = r.added) ∧
    (∀ e ∈ r.added, e.feedId = feed.id) ∧
    (db'.events.filter (fun e => !(decide (e.feedId = feed.id)))
        = db.events.filter (fun e => !(decide (e.feedId = feed.id)))) ∧
    List.Perm (r.added.map (fun e => e.externalEventId))
      ((getEvents now (.ok evs)).map (fun e => e.externalEventId)) := by
  have h0 := syncCalendar_ok noFailure now (.ok evs) id path acct user db feed hfeed
  rw [h0] at hrun
  have hpair := Except.ok.inj hrun
  have hr : (createAllEvents noFailure (getEvents now (.ok evs)) feed.id
      (deleteFeedEvents feed.id db)).1 = r := congrArg Prod.fst hpair
  have hdb : updateFeedRow feed.id user
      (fun f => { f with lastSync := some now, syncToken := feed.syncToken })
      (createAllEvents noFailure (getEvents now (.ok evs)) feed.id
        (deleteFeedEvents feed.id db)).2 = db' := congrArg Prod.snd hpair
  subst hr hdb
  have hc := createAllEvents_spec noFailure (getEvents now (.ok evs)) feed.id
    (deleteFeedEvents feed.id db)
  have hclean : ∀ e ∈ (deleteFeedEvents feed.id db).events, ¬(e.feedId = feed.id) := by
    intro e he
    rw [deleteFeedEvents_events] at he
    simpa using (List.mem_filter.mp he).2
  refine ⟨?_, hc.2.2.2.1, ?_, ?_⟩
  · unfold eventsOfFeed
    rw [updateFeedRow_events]
    exact eventsOfFeed_after_create noFailure _ feed.id _ hclean
  · show (createAllEvents noFailure (getEvents now (.ok evs)) feed.id
        (deleteFeedEvents feed.id db)).2.events.filter _ = _
    rw [otherRows_after_create, deleteFeedEvents_events, List.filter_filter]
    apply List.filter_congr
    intro a _
    rw [Bool.and_self]
  · rw [hc.2.2.2.2]
    have hfm : ((getEvents now (.ok evs)).filter (fun e => e.isMaster)).filter
        (fun e => !noFailure (masterEventData feed.id e))
        = (getEvents now (.ok evs)).filter (fun e => e.isMaster) :=
      List.filter_eq_self.mpr (fun a _ => rfl)
    have hfi : ((getEvents now (.ok evs)).filter (fun e => !e.isMaster)).filter
        (fun e => !noFailure (instanceEventData
          (buildMasterMap (createMasterEvents noFailure
            ((getEvents now (.ok evs)).filter (fun e => e.isMaster)) feed.id
            (deleteFeedEvents feed.id db)).1) feed.id e))
        = (getEvents now (.ok evs)).filter (fun e => !e.isMaster) :=
      List.filter_eq_self.mpr (fun a _ => rfl)
    rw [hfm, hfi, ← List.map_append]
    exact (List.filter_append_perm _ _).map _

/-- Witness for C1: one standalone event synced into `dbW`. -/
theorem C1_full_replacement_witness :
    (dbW.feeds.find? (caldavFeedFilter "f1" "/cal/home" "a1" "u1") = some feedF1) ∧
    (syncCalendar noFailure nowSync (.ok [soloEvent]) "f1" "/cal/home" "a1" "u1" dbW
        = .ok (r1W, db1W)) ∧
    (eventsOfFeed db1W feedF1.id = r1W.added) ∧
    (db1W.events.filter (fun e => !(decide (e.feedId = feedF1.id)))
        = dbW.events.filter (fun e => !(decide (e.feedId = feedF1.id)))) ∧
    List.Perm (r1W.added.map (fun e => e.externalEventId))
      ((getEvents nowSync (.ok [soloEvent])).map (fun e => e.externalEventId)) :=
  ⟨by decide, by rfl,
    (C1_full_replacement nowSync [soloEvent] "f1" "/cal/home" "a1" "u1" dbW feedF1
      r1W db1W (by decide) (by rfl)).1,
    (C1_full_replacement nowSync [soloEvent] "f1" "/cal/home" "a1" "u1" dbW feedF1
      r1W db1W (by decide) (by rfl)).2.2.1,
    (C1_full_replacement nowSync [soloEvent] "f1" "/cal/home" "a1" "u1" dbW feedF1
      r1W db1W (by decide) (by rfl)).2.2.2⟩

/-- C6 counterexample: with the fetch failing (HTTP 500), `syncCalendar`
returns `.ok` instead of throwing, the feed's rows are wiped, `lastSync`
is advanced from its prior value, and `error` stays `none`. -/
theorem C6_counterexample_http500_swallowed :
    (syncCalendar noFailure nowSync (.error "Request failed with status code 500")
        "f1" "/cal/home" "a1" "u1" dbW
      = .ok ({ added := [], updated := [], deleted := [] }, dbAfterC6)) ∧
    (feedF1.lastSync = some 5) ∧
    (feedF1Synced.lastSync = some nowSync) ∧
    (nowSync ≠ 5) ∧
    (feedF1Synced.error = none) ∧
    (eventsOfFeed dbAfterC6 "f1" = []) := by
  refine ⟨by rfl, rfl, rfl, by decide, rfl, by decide⟩

/-- C6 amended: a failed remote fetch is swallowed inside `getEvents`
(which returns `[]`), so `syncCalendar` completes without throwing with
an empty result, the feed's rows are deleted and none recreated,
`feed.error` is never written, and `lastSync` IS advanced to the sync
time. -/
theorem C6_amended_fetch_failure_swallowed (now : Int) (msg : String)
    (id path acct user : String) (db : DbState) (feed : CalendarFeed)
    (hfeed : db.feeds.find? (caldavFeedFilter id path acct user) = some feed) :
    (syncCalendar noFailure now (.error msg) id path acct user db
        = .ok ({ added := [], updated := [], deleted := [] },
            updateFeedRow feed.id user
              (fun f => { f with lastSync := some now, syncToken := feed.syncToken })
              (deleteFeedEvents feed.id db))) ∧
    (eventsOfFeed (updateFeedRow feed.id user
        (fun f => { f with lastSync := some now, syncToken := feed.syncToken })
        (deleteFeedEvents feed.id db)) feed.id = []) ∧
    ((updateFeedRow feed.id user
        (fun f => { f with lastSync := some now, syncToken := feed.syncToken })
        (deleteFeedEvents feed.id db)).feeds.map (fun f => f.error)
      = db.feeds.map (fun f => f.error)) ∧
    ({ feed with lastSync := some now, syncToken := feed.syncToken }
      ∈ (updateFeedRow feed.id user
          (fun f => { f with lastSync := some now, syncToken := feed.syncToken })
          (deleteFeedEvents feed.id db)).feeds) := by
  have hflt := List.find?_some hfeed
  have hprops := of_decide_eq_true hflt
  refine ⟨?_, ?_, ?_, ?_⟩
  · exact syncCalendar_ok noFailure now (.error msg) id path acct user db feed hfeed
  · unfold eventsOfFeed
    rw [updateFeedRow_events, deleteFeedEvents_events, List.filter_filter]
    apply List.filter_eq_nil_iff.mpr
    intro a _
    simp
  · show ((deleteFeedEvents feed.id db).feeds.map _).map _ = _
    rw [deleteFeedEvents_feeds, List.map_map]
    have hcomp : ((fun f : CalendarFeed => f.error) ∘ fun f =>
        if f.id = feed.id ∧ f.userId = user
        then { f with lastSync := some now, syncToken := feed.syncToken } else f)
        = (fun f : CalendarFeed => f.error) := by
      funext f
      exact error_update_invariant feed.id user now feed.syncToken f
    rw [hcomp]
  · show _ ∈ (deleteFeedEvents feed.id db).feeds.map _
    rw [deleteFeedEvents_feeds]
    have hmem : feed ∈ db.feeds := List.mem_of_find?_eq_some hfeed
    have heq : (fun f =>
        if f.id = feed.id ∧ f.userId = user
        then { f with lastSync := some now, syncToken := feed.syncToken } else f) feed
        = { feed with lastSync := some now, syncToken := feed.syncToken } := by
      show (if feed.id = feed.id ∧ feed.userId = user
          then { feed with lastSync := some now, syncToken := feed.syncToken } else feed) = _
      rw [if_pos ⟨rfl, hprops.2.2.2.2⟩]
    rw [← heq]
    exact List.mem_map_of_mem _ hmem

/-- Witness for C6's amended theorem at the `dbW` fixture. -/
theorem C6_amended_fetch_failure_swallowed_witness :
    (dbW.feeds.find? (caldavFeedFilter "f1" "/cal/home" "a1" "u1") = some feedF1) ∧
    (syncCalendar noFailure nowSync (.error "HTTP 500") "f1" "/cal/home" "a1" "u1" dbW
        = .ok ({ added := [], updated := [], deleted := [] },
            updateFeedRow feedF1.id "u1"
              (fun f => { f with lastSync := some nowSync, syncToken := feedF1.syncToken })
              (deleteFeedEvents feedF1.id dbW))) ∧
    ((updateFeedRow feedF1.id "u1"
        (fun f => { f with lastSync := some nowSync, syncToken := feedF1.syncToken })
        (deleteFeedEvents feedF1.id dbW)).feeds.map (fun f => f.error)
      = dbW.feeds.map (fun f => f.error)) :=
  ⟨by decide,
    (C6_amended_fetch_failure_swallowed nowSync "HTTP 500" "f1" "/cal/home" "a1" "u1"
      dbW feedF1 (by decide)).1,
    (C6_amended_fetch_failure_swallowed nowSync "HTTP 500" "f1" "/cal/home" "a1" "u1"
      dbW feedF1 (by decide)).2.2.1⟩

/-- C7: running `syncCalendar` twice against the same unchanged remote
data yields the same feed-row count and the same external-id sequence
after each run. -/
theorem C7_idempotent_resync (now : Int) (evs : List CalendarEvent)
    (id path acct user : String) (db : DbState) (feed : CalendarFeed)
    (r1 : SyncResult) (db1 : DbState) (r2 : SyncResult) (db2 : DbState)
    (hfeed : db.feeds.find? (caldavFeedFilter id path acct user) = some feed)
    (h1 : syncCalendar noFailure now (.ok evs) id path acct user db = .ok (r1, db1))
    (h2 : syncCalendar noFailure now (.ok evs) id path acct user db1 = .ok (r2, db2)) :
    ((eventsOfFeed db1 feed.id).length = (eventsOfFeed db2 feed.id).length) ∧
    ((eventsOfFeed db1 feed.id).map (fun e => e.externalEventId)
        = (eventsOfFeed db2 feed.id).map (fun e => e.externalEventId)) := by
  have s1 := sync_run_summary now evs id path acct user db feed r1 db1 hfeed h1
  have s2 := sync_run_summary now evs id path acct user db1
    { feed with lastSync := some now, syncToken := feed.syncToken } r2 db2 s1.2 h2
  have hmap2 : (eventsOfFeed db2 feed.id).map (fun e => e.externalEventId)
      = syncedExtIds now evs := s2.1
  refine ⟨?_, by rw [s1.1, hmap2]⟩
  have l1 := congrArg List.length s1.1
  have l2 := congrArg List.length hmap2
  rw [List.length_map] at l1 l2
  rw [l1, l2]

/-- Witness for C7: the same fetch synced twice over the `dbW` fixture. -/
theorem C7_idempotent_resync_witness :
    (dbW.feeds.find? (caldavFeedFilter "f1" "/cal/home" "a1" "u1") = some feedF1) ∧
    (syncCalendar noFailure nowSync (.ok [soloEvent]) "f1" "/cal/home" "a1" "u1" dbW
        = .ok (r1W, db1W)) ∧
    (syncCalendar noFailure nowSync (.ok [soloEvent]) "f1" "/cal/home" "a1" "u1" db1W
        = .ok (r2W, db2W)) ∧
    ((eventsOfFeed db1W feedF1.id).length = (eventsOfFeed db2W feedF1.id).length) ∧
    ((eventsOfFeed db1W feedF1.id).map (fun e => e.externalEventId)
        = (eventsOfFeed db2W feedF1.id).map (fun e => e.externalEventId)) :=
  ⟨by decide, by rfl, by rfl,
    (C7_idempotent_resync nowSync [soloEvent] "f1" "/cal/home" "a1" "u1" dbW feedF1
      r1W db1W r2W db2W (by decide) (by rfl) (by rfl)).1,
    (C7_idempotent_resync nowSync [soloEvent] "f1" "/cal/home" "a1" "u1" dbW feedF1
      r1W db1W r2W db2W (by decide) (by rfl) (by rfl)).2⟩

/-- C10: a create failure on one event is contained: the event is
skipped, the rest of the batch is persisted, the added list holds
exactly the successfully created rows (masters then instances), the sync
still completes with `.ok`, and the feed's `lastSync` is stamped. -/
theorem C10_per_event_failure_contained (fails : CalendarEvent → Bool) (now : Int)
    (evs : List CalendarEvent) (id path acct user : String) (db : DbState)
    (feed : CalendarFeed)
    (hfeed : db.feeds.find? (caldavFeedFilter id path acct user) = some feed) :
    (syncCalendar fails now (.ok evs) id path acct user db
        = .ok ((createAllEvents fails (getEvents now (.ok evs)) feed.id
              (deleteFeedEvents feed.id db)).1,
            updateFeedRow feed.id user
              (fun f => { f with lastSync := some now, syncToken := feed.syncToken })
              (createAllEvents fails (getEvents now (.ok evs)) feed.id
                (deleteFeedEvents feed.id db)).2)) ∧
    (((createMasterEvents fails
        ((getEvents now (.ok evs)).filter (fun e => e.isMaster)) feed.id
        (deleteFeedEvents feed.id db)).1.map stripId
      = (((getEvents now (.ok evs)).filter (fun e => e.isMaster)).filter
          (fun e => !fails (masterEventData feed.id e))).map
            (fun e => masterEventData feed.id e))) ∧
    (((createInstanceEvents fails
        ((getEvents now (.ok evs)).filter (fun e => !e.isMaster))
        (buildMasterMap (createMasterEvents fails
          ((getEvents now (.ok evs)).filter (fun e => e.isMaster)) feed.id
          (deleteFeedEvents feed.id db)).1)
        feed.id
        (createMasterEvents fails
          ((getEvents now (.ok evs)).filter (fun e => e.isMaster)) feed.id
          (deleteFeedEvents feed.id db)).2).1.map stripId
      = (((getEvents now (.ok evs)).filter (fun e => !e.isMaster)).filter
          (fun e => !fails (instanceEventData
            (buildMasterMap (createMasterEvents fails
              ((getEvents now (.ok evs)).filter (fun e => e.isMaster)) feed.id
              (deleteFeedEvents feed.id db)).1) feed.id e))).map
            (fun e => instanceEventData
              (buildMasterMap (createMasterEvents fails
                ((getEvents now (.ok evs)).filter (fun e => e.isMaster)) feed.id
                (deleteFeedEvents feed.id db)).1) feed.id e))) ∧
    ((createAllEvents fails (getEvents now (.ok evs)) feed.id
        (deleteFeedEvents feed.id db)).1.added
      = (createMasterEvents fails
          ((getEvents now (.ok evs)).filter (fun e => e.isMaster)) feed.id
          (deleteFeedEvents feed.id db)).1
        ++ (createInstanceEvents fails
            ((getEvents now (.ok evs)).filter (fun e => !e.isMaster))
            (buildMasterMap (createMasterEvents fails
              ((getEvents now (.ok evs)).filter (fun e => e.isMaster)) feed.id
              (deleteFeedEvents feed.id db)).1)
            feed.id
            (createMasterEvents fails
              ((getEvents now (.ok evs)).filter (fun e => e.isMaster)) feed.id
              (deleteFeedEvents feed.id db)).2).1) ∧
    (eventsOfFeed (updateFeedRow feed.id user
        (fun f => { f with lastSync := some now, syncToken := feed.syncToken })
        (createAllEvents fails (getEvents now (.ok evs)) feed.id
          (deleteFeedEvents feed.id db)).2) feed.id
      = (createAllEvents fails (getEvents now (.ok evs)) feed.id
          (deleteFeedEvents feed.id db)).1.added) ∧
    ({ feed with lastSync := some now, syncToken := feed.syncToken }
      ∈ (updateFeedRow feed.id user
          (fun f => { f with lastSync := some now, syncToken := feed.syncToken })
          (createAllEvents fails (getEvents now (.ok evs)) feed.id
            (deleteFeedEvents feed.id db)).2).feeds) := by
  have hflt := List.find?_some hfeed
  have hprops := of_decide_eq_true hflt
  have hm := createMasterEvents_spec fails
    ((getEvents now (.ok evs)).filter (fun e => e.isMaster)) feed.id
    (deleteFeedEvents feed.id db)
  have hi := createInstanceEvents_spec fails
    ((getEvents now (.ok evs)).filter (fun e => !e.isMaster))
    (buildMasterMap (createMasterEvents fails
      ((getEvents now (.ok evs)).filter (fun e => e.isMaster)) feed.id
      (deleteFeedEvents feed.id db)).1)
    feed.id
    (createMasterEvents fails
      ((getEvents now (.ok evs)).filter (fun e => e.isMaster)) feed.id
      (deleteFeedEvents feed.id db)).2
  have hc := createAllEvents_spec fails (getEvents now (.ok evs)) feed.id
    (deleteFeedEvents feed.id db)
  have hclean : ∀ e ∈ (deleteFeedEvents feed.id db).events, ¬(e.feedId = feed.id) := by
    intro e he
    rw [deleteFeedEvents_events] at he
    simpa using (List.mem_filter.mp he).2
  refine ⟨syncCalendar_ok fails now (.ok evs) id path acct user db feed hfeed,
    hm.2.2.1, hi.2.2.1, hc.1, ?_, ?_⟩
  · unfold eventsOfFeed
    rw [updateFeedRow_events]
    exact eventsOfFeed_after_create fails _ feed.id _ hclean
  · show _ ∈ ((createAllEvents fails (getEvents now (.ok evs)) feed.id
        (deleteFeedEvents feed.id db)).2.feeds).map _
    rw [hc.2.2.1, deleteFeedEvents_feeds]
    have hmem : feed ∈ db.feeds := List.mem_of_find?_eq_some hfeed
    have heq : (fun f =>
        if f.id = feed.id ∧ f.userId = user
        then { f with lastSync := some now, syncToken := feed.syncToken } else f) feed
        = { feed with lastSync := some now, syncToken := feed.syncToken } := by
      show (if feed.id = feed.id ∧ feed.userId = user
          then { feed with lastSync := some now, syncToken := feed.syncToken } else feed) = _
      rw [if_pos ⟨rfl, hprops.2.2.2.2⟩]
    rw [← heq]
    exact List.mem_map_of_mem _ hmem

/-- Witness for C10: three fetched events with the middle one rejected by
the store; the run completes and persists exactly the other two. -/
theorem C10_per_event_failure_contained_witness :
    (dbW.feeds.find? (caldavFeedFilter "f1" "/cal/home" "a1" "u1") = some feedF1) ∧
    (syncCalendar failsOnM2 nowSync (.ok [eventM1, eventM2, eventM3])
        "f1" "/cal/home" "a1" "u1" dbW
      = .ok ((createAllEvents failsOnM2 (getEvents nowSync (.ok [eventM1, eventM2, eventM3]))
              feedF1.id (deleteFeedEvents feedF1.id dbW)).1,
          updateFeedRow feedF1.id "u1"
            (fun f => { f with lastSync := some nowSync, syncToken := feedF1.syncToken })
            (createAllEvents failsOnM2 (getEvents nowSync (.ok [eventM1, eventM2, eventM3]))
              feedF1.id (deleteFeedEvents feedF1.id dbW)).2)) ∧
    ((createAllEvents failsOnM2 (getEvents nowSync (.ok [eventM1, eventM2, eventM3]))
        "f1" (deleteFeedEvents "f1" dbW)).1.added.map (fun e => e.externalEventId)
      = [some "m1", some "m3"]) ∧
    (failsOnM2 (instanceEventData [] "f1" eventM2) = true) :=
  ⟨by decide,
    (C10_per_event_failure_contained failsOnM2 nowSync [eventM1, eventM2, eventM3]
      "f1" "/cal/home" "a1" "u1" dbW feedF1 (by decide)).1,
    by decide, by decide⟩

/-- C2: For every VEVENT whose RRULE property is present and whose
RECURRENCE-ID property is absent, normalization classifies it as a
master: `isMaster = true`, `isRecurring = true`, `masterEventId = null`,
and `externalEventId` equal to the VEVENT's UID. -/
theorem C2_master_classification (event : CalendarEvent) (uid : String)
    (processedUids : List String) :
    ((setEventTypeProperties event uid true false processedUids).1.isMaster = true) ∧
    ((setEventTypeProperties event uid true false processedUids).1.isRecurring = true) ∧
    ((setEventTypeProperties event uid true false processedUids).1.masterEventId = none) ∧
    ((setEventTypeProperties event uid true false processedUids).1.externalEventId = some uid) := by
  simp [setEventTypeProperties]

/-- C3: For every VEVENT with a RECURRENCE-ID property (whether or not
RRULE is also present), normalization classifies it as an instance:
`isMaster = false`, `isRecurring = false`, `masterEventId` equal to the
UID's substring before the first underscore, and `externalEventId` equal
to that prefix, an underscore, and the ISO date (`YYYY-MM-DD`) of the
event's start. -/
theorem C3_instance_classification (event : CalendarEvent) (uid : String)
    (hasRRule : Bool) (processedUids : List String) :
    ((setEventTypeProperties event uid hasRRule true processedUids).1.isMaster = false) ∧
    ((setEventTypeProperties event uid hasRRule true processedUids).1.isRecurring = false) ∧
    ((setEventTypeProperties event uid hasRRule true processedUids).1.masterEventId
        = some (takeBeforeUnderscore uid)) ∧
    ((setEventTypeProperties event uid hasRRule true processedUids).1.externalEventId
        = some (takeBeforeUnderscore uid ++ "_" ++ isoDateOfMillis event.start)) := by
  cases hasRRule <;> simp [setEventTypeProperties]

/-- C9: A WebCal subscription request whose GET returns a Content-Type
that does not begin with `text/calendar` is answered 404 "WebCal not
found", and no CalendarFeed row is created (the store is unchanged). -/
theorem C9_bad_content_type_404 (url calendarId userId : String)
    (info : WebCalInfo) (ct : String) (syncFails : CalendarEvent → Bool)
    (syncFetch : Except String (List CalendarEvent)) (now : Int) (newFeedId : String)
    (db : DbState)
    (hurl : url ≠ "")
    (hct : info.headerContentType = some ct)
    (hbad : strStartsWith ct "text/calendar" = false) :
    webcalAddPOST (some url) calendarId userId (.ok info) syncFails syncFetch now newFeedId db
      = (⟨404, some "WebCal not found", false⟩, db) := by
  simp [webcalAddPOST, hurl, hct, hbad]

/-- Witness for C9 at `Content-Type: application/json`. -/
theorem C9_bad_content_type_404_witness :
    ("https://example.org/cal.ics" ≠ "") ∧
    ((⟨"not a calendar", some "application/json"⟩ : WebCalInfo).headerContentType
        = some "application/json") ∧
    (strStartsWith "application/json" "text/calendar" = false) ∧
    (webcalAddPOST (some "https://example.org/cal.ics") "c1" "u1"
        (.ok ⟨"not a calendar", some "application/json"⟩) noFailure (.ok []) 0 "nf"
        ⟨[], [], 0⟩
      = (⟨404, some "WebCal not found", false⟩, ⟨[], [], 0⟩)) :=
  ⟨by decide, rfl, by decide,
    C9_bad_content_type_404 "https://example.org/cal.ics" "c1" "u1"
      ⟨"not a calendar", some "application/json"⟩ "application/json" noFailure (.ok []) 0 "nf"
      ⟨[], [], 0⟩ (by decide) rfl (by decide)⟩

/-- C4: For every master with a parseable recurrence rule, expansion
synthesizes one instance per occurrence timestamp in the window, and each
instance copies the master's fields except start (the occurrence), end
(occurrence plus the master's duration), `isMaster = false`, and
`recurringEventId` = the master's `externalEventId`; in particular
`FREQ=DAILY;COUNT=5` anchored at 2024-01-01T09:00 with a covering window
yields exactly 5 instances at 09:00 on Jan 1–5, 2024, each with
end = start + the master's duration. -/
theorem C4_expansion_per_occurrence :
    (∀ (now : Int) (m : CalendarEvent) (r : String) (opts : RRuleOptions),
      m.isRecurring = true → m.recurrenceRule = some r → parseRRuleString r = some opts →
      (expandMasterEvent now m).length = (occurrencesOf now m opts).length ∧
      ∀ (k : Nat) (hk : k < (expandMasterEvent now m).length)
          (hk2 : k < (occurrencesOf now m opts).length),
        (((expandMasterEvent now m).get ⟨k, hk⟩).start = (occurrencesOf now m opts).get ⟨k, hk2⟩) ∧
        (((expandMasterEvent now m).get ⟨k, hk⟩).end_
            = (occurrencesOf now m opts).get ⟨k, hk2⟩ + (m.end_ - m.start)) ∧
        (((expandMasterEvent now m).get ⟨k, hk⟩).isMaster = false) ∧
        (((expandMasterEvent now m).get ⟨k, hk⟩).recurringEventId = m.externalEventId) ∧
        (((expandMasterEvent now m).get ⟨k, hk⟩).externalEventId = m.externalEventId) ∧
        (((expandMasterEvent now m).get ⟨k, hk⟩).title = m.title) ∧
        (((expandMasterEvent now m).get ⟨k, hk⟩).description = m.description) ∧
        (((expandMasterEvent now m).get ⟨k, hk⟩).location = m.location) ∧
        (((expandMasterEvent now m).get ⟨k, hk⟩).allDay = m.allDay) ∧
        (((expandMasterEvent now m).get ⟨k, hk⟩).status = m.status) ∧
        (((expandMasterEvent now m).get ⟨k, hk⟩).recurrenceRule = m.recurrenceRule) ∧
        (((expandMasterEvent now m).get ⟨k, hk⟩).isRecurring = m.isRecurring)) ∧
    ((expandMasterEvent nowSync masterC4).map (fun e => (e.start, e.end_))
        = [(utcMillis 2024 1 1 9 0, utcMillis 2024 1 1 10 0),
           (utcMillis 2024 1 2 9 0, utcMillis 2024 1 2 10 0),
           (utcMillis 2024 1 3 9 0, utcMillis 2024 1 3 10 0),
           (utcMillis 2024 1 4 9 0, utcMillis 2024 1 4 10 0),
           (utcMillis 2024 1 5 9 0, utcMillis 2024 1 5 10 0)]) ∧
    ((expandMasterEvent nowSync masterC4).length = 5) ∧
    ((expandMasterEvent nowSync masterC4).all
        (fun e => !e.isMaster && decide (e.recurringEventId = some "uid1")) = true) := by
  refine ⟨?_, by decide, by decide, by decide⟩
  intro now m r opts h1 h2 h3
  have hexp : expandMasterEvent now m
      = (occurrencesOf now m opts).map (fun date =>
          { m with
              externalEventId := m.externalEventId
              start := date
              end_ := date + (m.end_ - m.start)
              isRecurring := true
              recurrenceRule := m.recurrenceRule
              isMaster := false
              recurringEventId := m.externalEventId }) := by
    simp [expandMasterEvent, h1, h2, h3, occurrencesOf]
  constructor
  · rw [hexp, List.length_map]
  · intro k hk hk2
    have hget : (expandMasterEvent now m).get ⟨k, hk⟩
        = { m with
              externalEventId := m.externalEventId
              start := (occurrencesOf now m opts).get ⟨k, hk2⟩
              end_ := (occurrencesOf now m opts).get ⟨k, hk2⟩ + (m.end_ - m.start)
              isRecurring := true
              recurrenceRule := m.recurrenceRule
              isMaster := false
              recurringEventId := m.externalEventId } := by
      have := List.get_of_eq hexp ⟨k, hk⟩
      rw [this]
      simp [List.getElem_map]
    rw [hget, h1]
    simp

/-- Witness for C4's general part at the daily fixture. -/
theorem C4_expansion_per_occurrence_witness :
    (masterC4.isRecurring = true) ∧
    (masterC4.recurrenceRule = some "FREQ=DAILY;COUNT=5") ∧
    (parseRRuleString "FREQ=DAILY;COUNT=5"
        = some { freq := .daily, interval := 1, count := some 5, dtstart := 0 }) ∧
    ((expandMasterEvent nowSync masterC4).length
        = (occurrencesOf nowSync masterC4
            { freq := .daily, interval := 1, count := some 5, dtstart := 0 }).length) :=
  ⟨rfl, rfl, by decide,
    (C4_expansion_per_occurrence.1 nowSync masterC4 "FREQ=DAILY;COUNT=5"
      { freq := .daily, interval := 1, count := some 5, dtstart := 0 }
      rfl rfl (by decide)).1⟩

/-- C5 counterexample: for a sync at 2024-06-15, the window's end bound is
midnight starting 2025-12-31 (Dec 31 of year+1), so an occurrence at
09:00 on that very day — "any time of day on Dec 31 of year+1" per the
claim — is NOT included: its expansion is empty. -/
theorem C5_counterexample_dec31_morning_excluded :
    (yearOfMillis nowSync = 2024) ∧
    ((getTimeRange nowSync).end_ = utcMidnightMillis 2025 12 31) ∧
    (masterDec31.start = utcMillis 2025 12 31 9 0) ∧
    (isoDateOfMillis masterDec31.start = "2025-12-31") ∧
    (masterDec31.isRecurring = true) ∧
    (parseRRuleString "FREQ=DAILY;COUNT=1"
        = some { freq := .daily, interval := 1, count := some 1, dtstart := 0 }) ∧
    (expandMasterEvent nowSync masterDec31 = []) := by
  refine ⟨by decide, by decide, by decide, by decide, rfl, by decide, by decide⟩

/-- C5 amended: the window runs from midnight starting Jan 1 of year−1 to
midnight starting Dec 31 of year+1; every expanded occurrence lies within
those closed bounds, and an occurrence of the rule that falls inside the
window — including one exactly at either bound instant — is expanded.
(Only 00:00:00 on Dec 31 of year+1 is inside; later times that day are
not.) -/
theorem C5_window_amended :
    (∀ now : Int, getTimeRange now
        = ⟨utcMidnightMillis (yearOfMillis now - 1) 1 1,
           utcMidnightMillis (yearOfMillis now + 1) 12 31⟩) ∧
    (∀ (now : Int) (m : CalendarEvent) (d : Int),
        d ∈ (expandMasterEvent now m).map (fun e => e.start) →
        (getTimeRange now).start ≤ d ∧ d ≤ (getTimeRange now).end_) ∧
    (∀ (now : Int) (m : CalendarEvent) (r : String) (opts : RRuleOptions) (d : Int),
        m.isRecurring = true → m.recurrenceRule = some r → parseRRuleString r = some opts →
        d ∈ rruleOccurrences { opts with dtstart := m.start } (getTimeRange now).end_ →
        (getTimeRange now).start ≤ d → d ≤ (getTimeRange now).end_ →
        d ∈ (expandMasterEvent now m).map (fun e => e.start)) := by
  refine ⟨fun now => rfl, ?_, ?_⟩
  · intro now m d hd
    cases hrec : m.isRecurring with
    | false => rw [expandMasterEvent] at hd; simp [hrec] at hd
    | true =>
      cases hrule : m.recurrenceRule with
      | none => rw [expandMasterEvent] at hd; simp [hrec, hrule] at hd
      | some r =>
        cases hparse : parseRRuleString r with
        | none => rw [expandMasterEvent] at hd; simp [hrec, hrule, hparse] at hd
        | some opts =>
          rw [expandMasterEvent] at hd
          simp only [hrec, hrule, hparse, Bool.not_true, Bool.false_eq_true, if_false,
            rruleBetween, List.map_map, List.mem_map, List.mem_filter] at hd
          obtain ⟨t, ⟨_, hcond⟩, hstart⟩ := hd
          have hts : t = d := by simpa using hstart
          subst hts
          simp only [if_true, Bool.and_eq_true, decide_eq_true_eq] at hcond
          exact hcond
  · intro now m r opts d h1 h2 h3 hocc hlo hhi
    rw [expandMasterEvent]
    simp only [h1, h2, h3, Bool.not_true, Bool.false_eq_true, if_false,
      rruleBetween, List.map_map, List.mem_map, List.mem_filter]
    refine ⟨d, ⟨hocc, ?_⟩, by simp⟩
    simp [hlo, hhi]

/-- Witness for C5's amended theorem: the window bounds at `nowSync`, and a
rule whose occurrence is exactly the end bound is expanded. -/
theorem C5_window_amended_witness :
    (getTimeRange nowSync
        = ⟨utcMidnightMillis 2023 1 1, utcMidnightMillis 2025 12 31⟩) ∧
    (masterBoundary.isRecurring = true) ∧
    (masterBoundary.recurrenceRule = some "FREQ=DAILY;COUNT=1") ∧
    (parseRRuleString "FREQ=DAILY;COUNT=1"
        = some { freq := .daily, interval := 1, count := some 1, dtstart := 0 }) ∧
    (utcMidnightMillis 2025 12 31 ∈
      rruleOccurrences
        { freq := .daily, interval := 1, count := some 1, dtstart := masterBoundary.start }
        (getTimeRange nowSync).end_) ∧
    (utcMidnightMillis 2025 12 31 ∈
      (expandMasterEvent nowSync masterBoundary).map (fun e => e.start)) :=
  ⟨by decide, rfl, rfl, by decide, by decide,
    C5_window_amended.2.2 nowSync masterBoundary "FREQ=DAILY;COUNT=1"
      { freq := .daily, interval := 1, count := some 1, dtstart := 0 }
      (utcMidnightMillis 2025 12 31) rfl rfl (by decide) (by decide) (by decide) (by decide)⟩

end FluidCal
